import Mathlib

/-!
Shallow embedding of the reservation engine of the evcharge repository.

The embedded code lives in:
- `src/unnamed/part_003` (shared drizzle/zod schema: bookings table and
  `insertBookingSchema`),
- `src/server/mongoClient.ts` (`MemStorage` and `MongoStorage` classes;
  the application binds `storage = new MongoStorage()`),
- `src/unnamed/part_004` (`registerRoutes`: the POST /api/bookings and
  PATCH /api/bookings/:id/status handlers).

JavaScript `Map` objects and MongoDB collections are both modelled as
association lists of records keyed by the numeric `id` field; JS numbers
that carry ids, durations and amounts are modelled as `Int`; the ambient
clock (`new Date()`) and the random draw (`Math.random()`) are passed as
explicit parameters.  Thrown exceptions are modelled with `Except`,
paired with the post-state, because a JS mutation that happened before a
throw persists (e.g. `MemStorage.createBooking` inserts the booking into
the map before `updatePortStatus` may throw).  Fields of the source state
that no modelled operation reads (users, stations, the session store) are
omitted from the state record.
-/

/-- Untyped JSON-ish value of a request-body field, as seen by the zod
schema `insertBookingSchema.parse` in the POST /api/bookings handler. -/
inductive JsValue where
  | null : JsValue
  | bool : Bool → JsValue
  | num : Int → JsValue
  | str : String → JsValue
  deriving Repr, DecidableEq

/-- Port record, after the `ports` table of `src/unnamed/part_003`:
id, stationId, name, type, powerKw (nullable), status (nullable text with
default "available"). -/
structure Port where
  id : Int
  stationId : Int
  name : String
  type : String
  powerKw : Option Int
  status : Option String
  deriving Repr, DecidableEq

/-- Booking record, after the `bookings` table of `src/unnamed/part_003`,
plus the `paymentStatus` field that `processUpiPayment` adds dynamically
(absent on creation). -/
structure Booking where
  id : Int
  userId : Int
  stationId : Int
  portId : Int
  date : String
  startTime : String
  endTime : String
  duration : Int
  status : Option String
  vehicleInfo : Option String
  specialRequests : Option String
  createdAt : Nat
  paymentStatus : Option String
  deriving Repr, DecidableEq

/-- Output type of `insertBookingSchema.parse` (the bookings insert schema
of `src/unnamed/part_003`: every bookings column except id and createdAt). -/
structure InsertBooking where
  userId : Int
  stationId : Int
  portId : Int
  date : String
  startTime : String
  endTime : String
  duration : Int
  status : Option String
  vehicleInfo : Option String
  specialRequests : Option String
  deriving Repr, DecidableEq

/-- Raw POST /api/bookings request body: each schema key either absent or
an untyped JSON value.  Keys outside the schema (paymentMethod, upiId,
paymentAmount) are stripped by zod and therefore not modelled; the userId
key of the body is irrelevant because the handler overwrites it with
`req.user.id` before parsing. -/
structure RawBody where
  stationId : Option JsValue
  portId : Option JsValue
  date : Option JsValue
  startTime : Option JsValue
  endTime : Option JsValue
  duration : Option JsValue
  status : Option JsValue
  vehicleInfo : Option JsValue
  specialRequests : Option JsValue
  deriving Repr, DecidableEq

/-- Zod check for a notNull integer column (stationId, portId, duration):
the field must be present and be a number. -/
def parseInteger (v : Option JsValue) : Option Int :=
  match v with
  | some (JsValue.num n) => some n
  | _ => none

/-- Zod check for a notNull text column (date, startTime, endTime): the
field must be present and be a string. -/
def parseText (v : Option JsValue) : Option String :=
  match v with
  | some (JsValue.str s) => some s
  | _ => none

/-- Zod check for a nullable optional text column (status, vehicleInfo,
specialRequests): absent and null both parse to none, a string parses to
some, any other type is a parse error. -/
def parseOptText (v : Option JsValue) : Option (Option String) :=
  match v with
  | none => some none
  | some JsValue.null => some none
  | some (JsValue.str s) => some (some s)
  | some _ => none

/-- The call `insertBookingSchema.parse(\x7b...req.body, userId: req.user?.id\x7d)`
of the POST /api/bookings handler: type-level validation of the body
fields, with the authenticated user id substituted for userId.  Returns
none where the source schema would throw a ZodError.  Note that the
schema checks only JSON types: it imposes no duration bounds, no
start-before-end ordering and no date or time format. -/
def insertBookingSchemaParse (body : RawBody) (uid : Int) : Option InsertBooking := do
  let stationId ← parseInteger body.stationId
  let portId ← parseInteger body.portId
  let date ← parseText body.date
  let startTime ← parseText body.startTime
  let endTime ← parseText body.endTime
  let duration ← parseInteger body.duration
  let status ← parseOptText body.status
  let vehicleInfo ← parseOptText body.vehicleInfo
  let specialRequests ← parseOptText body.specialRequests
  pure {
    userId := uid
    stationId := stationId
    portId := portId
    date := date
    startTime := startTime
    endTime := endTime
    duration := duration
    status := status
    vehicleInfo := vehicleInfo
    specialRequests := specialRequests
  }

/-- JS `x || d` on an optional string: undefined, null and the empty
string are falsy and yield the default. -/
def jsOr (x : Option String) (d : String) : String :=
  match x with
  | none => d
  | some v => if v = "" then d else v

/-- Replace the first list element satisfying p by its image under f;
models both `Map.set` on an existing key and a MongoDB `updateOne`. -/
def updateFirst (p : α → Bool) (f : α → α) : List α → List α
  | [] => []
  | x :: xs => if p x then f x :: xs else x :: updateFirst p f xs

/-- JS `Map.set(id, b)` keyed by the id field: replace the first entry
with that id in insertion order, or append when the key is new. -/
def setById (l : List Booking) (b : Booking) : List Booking :=
  match l with
  | [] => [b]
  | x :: xs => if x.id == b.id then b :: xs else x :: setById xs b

/-- Like setById but for the ports map of MemStorage. -/
def setPortById (l : List Port) (p : Port) : List Port :=
  match l with
  | [] => [p]
  | x :: xs => if x.id == p.id then p :: xs else x :: setPortById xs p

/-- MongoDB id generation in MongoStorage.createBooking and friends:
sort by id descending, take the head and add one, or 1 on an empty
collection. -/
def nextMongoId (ids : List Int) : Int :=
  match ids.max? with
  | some m => m + 1
  | none => 1

/-- Shared state shape of MemStorage and MongoStorage: the ports and
bookings collections (insertion-ordered, keyed by id) and the MemStorage
booking id counter (ignored by the MongoStorage operations, which derive
ids from the collection itself). -/
structure Storage where
  ports : List Port
  bookings : List Booking
  currentBookingId : Int
  deriving Repr, DecidableEq

namespace MemStorage

/-- MemStorage.getPort: `this.ports.get(id)`. -/
def getPort (s : Storage) (id : Int) : Option Port :=
  s.ports.find? (fun p => p.id == id)

/-- MemStorage.getBooking: `this.bookings.get(id)`. -/
def getBooking (s : Storage) (id : Int) : Option Booking :=
  s.bookings.find? (fun b => b.id == id)

/-- MemStorage.updatePortStatus: read the port (throw "Port not found"
when absent), then store a copy with the new status. -/
def updatePortStatus (s : Storage) (id : Int) (status : String) :
    Except String Port × Storage :=
  match getPort s id with
  | none => (Except.error "Port not found", s)
  | some port =>
    let updatedPort : Port := { port with status := some status }
    (Except.ok updatedPort, { s with ports := setPortById s.ports updatedPort })

/-- MemStorage.createBooking: take the next counter id, stamp createdAt
with the ambient clock, insert the booking (spreading insertBooking, so
its status field is stored verbatim, possibly absent), then set the port
status to in-use.  When the port is missing the booking insertion has
already happened and the exception propagates. -/
def createBooking (s : Storage) (ib : InsertBooking) (now : Nat) :
    Except String Booking × Storage :=
  let id := s.currentBookingId
  let booking : Booking := {
    id := id
    userId := ib.userId
    stationId := ib.stationId
    portId := ib.portId
    date := ib.date
    startTime := ib.startTime
    endTime := ib.endTime
    duration := ib.duration
    status := ib.status
    vehicleInfo := ib.vehicleInfo
    specialRequests := ib.specialRequests
    createdAt := now
    paymentStatus := none
  }
  let s1 : Storage := { s with
    currentBookingId := s.currentBookingId + 1
    bookings := setById s.bookings booking }
  match updatePortStatus s1 ib.portId "in-use" with
  | (Except.error e, s2) => (Except.error e, s2)
  | (Except.ok _, s2) => (Except.ok booking, s2)

/-- MemStorage.updateBookingStatus: read the booking (throw "Booking not
found" when absent), store a copy with the new status, and when the new
status is cancelled or completed also set the port status to available. -/
def updateBookingStatus (s : Storage) (id : Int) (status : String) :
    Except String Booking × Storage :=
  match getBooking s id with
  | none => (Except.error "Booking not found", s)
  | some booking =>
    let updatedBooking : Booking := { booking with status := some status }
    let s1 : Storage := { s with bookings := setById s.bookings updatedBooking }
    if status == "cancelled" || status == "completed" then
      match updatePortStatus s1 booking.portId "available" with
      | (Except.error e, s2) => (Except.error e, s2)
      | (Except.ok _, s2) => (Except.ok updatedBooking, s2)
    else
      (Except.ok updatedBooking, s1)

/-- MemStorage.processUpiPayment: draw `Math.random()` (passed here as
the explicit rational rand), succeed iff the draw is below 0.9, and on
success mark an existing booking as paid. -/
def processUpiPayment (s : Storage) (bookingId : Int) (upiId : String)
    (amount : Int) (rand : ℚ) : Bool × Storage :=
  let isSuccess := decide (rand < 9 / 10)
  if isSuccess then
    match getBooking s bookingId with
    | some booking =>
      let paid : Booking := { booking with paymentStatus := some "paid" }
      (true, { s with bookings := setById s.bookings paid })
    | none => (true, s)
  else
    (false, s)

end MemStorage

namespace MongoStorage

/-- MongoStorage.getPort: `findOne(\x7b id \x7d)` on the ports collection. -/
def getPort (s : Storage) (id : Int) : Option Port :=
  s.ports.find? (fun p => p.id == id)

/-- MongoStorage.getBooking: `findOne(\x7b id \x7d)` on the bookings
collection. -/
def getBooking (s : Storage) (id : Int) : Option Booking :=
  s.bookings.find? (fun b => b.id == id)

/-- MongoStorage.updatePortStatus: `updateOne` setting the status (a
no-op when no document matches), then re-read the port and throw "Port
not found" when it is absent. -/
def updatePortStatus (s : Storage) (id : Int) (status : String) :
    Except String Port × Storage :=
  let ports1 := updateFirst (fun p => p.id == id) (fun p => { p with status := some status }) s.ports
  let s1 : Storage := { s with ports := ports1 }
  match getPort s1 id with
  | none => (Except.error "Port not found", s1)
  | some port => (Except.ok port, s1)

/-- The booking document MongoStorage.createBooking builds: max id plus
one, createdAt stamped from the ambient clock, and a falsy status
defaulted to "pending" (`insertBooking.status || "pending"`). -/
def newBooking (s : Storage) (ib : InsertBooking) (now : Nat) : Booking :=
  { id := nextMongoId (s.bookings.map (fun b => b.id))
    userId := ib.userId
    stationId := ib.stationId
    portId := ib.portId
    date := ib.date
    startTime := ib.startTime
    endTime := ib.endTime
    duration := ib.duration
    status := some (jsOr ib.status "pending")
    vehicleInfo := ib.vehicleInfo
    specialRequests := ib.specialRequests
    createdAt := now
    paymentStatus := none }

/-- MongoStorage.createBooking: build the document (see newBooking),
insert it, then set the port status to in-use. -/
def createBooking (s : Storage) (ib : InsertBooking) (now : Nat) :
    Except String Booking × Storage :=
  let booking := newBooking s ib now
  let s1 : Storage := { s with bookings := s.bookings ++ [booking] }
  match updatePortStatus s1 ib.portId "in-use" with
  | (Except.error e, s2) => (Except.error e, s2)
  | (Except.ok _, s2) => (Except.ok booking, s2)

/-- MongoStorage.updateBookingStatus: `updateOne` setting the status,
re-read the booking (throw "Booking not found" when absent), and when the
new status is cancelled or completed also set the port status to
available. -/
def updateBookingStatus (s : Storage) (id : Int) (status : String) :
    Except String Booking × Storage :=
  let bookings1 := updateFirst (fun b => b.id == id) (fun b => { b with status := some status }) s.bookings
  let s1 : Storage := { s with bookings := bookings1 }
  match getBooking s1 id with
  | none => (Except.error "Booking not found", s1)
  | some booking =>
    if status == "cancelled" || status == "completed" then
      match updatePortStatus s1 booking.portId "available" with
      | (Except.error e, s2) => (Except.error e, s2)
      | (Except.ok _, s2) => (Except.ok booking, s2)
    else
      (Except.ok booking, s1)

/-- MongoStorage.processUpiPayment: draw `Math.random()` (the explicit
rational rand), succeed iff the draw is below 0.9, and on success mark
the booking document as paid via updateOne. -/
def processUpiPayment (s : Storage) (bookingId : Int) (upiId : String)
    (amount : Int) (rand : ℚ) : Bool × Storage :=
  let success := decide (rand < 9 / 10)
  if success then
    let bookings1 := updateFirst (fun b => b.id == bookingId)
      (fun b => { b with paymentStatus := some "paid" }) s.bookings
    (true, { s with bookings := bookings1 })
  else
    (false, s)

end MongoStorage

/-- HTTP-level outcome of a route handler: the response status code and
the booking payload, when one is returned. -/
structure HttpResponse where
  status : Nat
  booking : Option Booking
  deriving Repr, DecidableEq

/-- Target statuses the PATCH /api/bookings/:id/status handler accepts:
the literal list of the source. -/
def validStatuses : List String :=
  ["pending", "confirmed", "completed", "cancelled"]

/-- The POST /api/bookings handler of registerRoutes, bound to the live
MongoStorage: 401 without authentication, 400 on a ZodError from
insertBookingSchema, 404 when the port id resolves to no port, 400 when
the port status is anything but "available", otherwise createBooking and
201 with the booking; a thrown storage error is caught and mapped
to 500. -/
def postBookings (s : Storage) (auth : Option Int) (body : RawBody) (now : Nat) :
    HttpResponse × Storage :=
  match auth with
  | none => ({ status := 401, booking := none }, s)
  | some uid =>
    match insertBookingSchemaParse body uid with
    | none => ({ status := 400, booking := none }, s)
    | some bookingData =>
      match MongoStorage.getPort s bookingData.portId with
      | none => ({ status := 404, booking := none }, s)
      | some port =>
        if port.status == some "available" then
          match MongoStorage.createBooking s bookingData now with
          | (Except.ok booking, s1) => ({ status := 201, booking := some booking }, s1)
          | (Except.error _, s1) => ({ status := 500, booking := none }, s1)
        else
          ({ status := 400, booking := none }, s)

/-- The PATCH /api/bookings/:id/status handler of registerRoutes, bound
to the live MongoStorage: 401 without authentication, 400 when the body
status is falsy or not one of the four literal statuses, 404 when the
booking is missing, 403 when the actor is not the booking owner,
otherwise updateBookingStatus and 200 with the updated booking; a thrown
storage error is caught and mapped to 500.  No state-machine condition on
the current status is checked anywhere. -/
def patchBookingStatus (s : Storage) (auth : Option Int) (bookingId : Int)
    (statusField : Option JsValue) : HttpResponse × Storage :=
  match auth with
  | none => ({ status := 401, booking := none }, s)
  | some uid =>
    let status? : Option String :=
      match statusField with
      | some (JsValue.str st) => if validStatuses.contains st then some st else none
      | _ => none
    match status? with
    | none => ({ status := 400, booking := none }, s)
    | some st =>
      match MongoStorage.getBooking s bookingId with
      | none => ({ status := 404, booking := none }, s)
      | some booking =>
        if booking.userId == uid then
          match MongoStorage.updateBookingStatus s bookingId st with
          | (Except.ok updated, s1) => ({ status := 200, booking := some updated }, s1)
          | (Except.error _, s1) => ({ status := 500, booking := none }, s1)
        else
          ({ status := 403, booking := none }, s)

/-- Modelled from the spec: a Booking is active when its status is
pending or confirmed (GLOSSARY, "Active booking"). -/
def isActive (b : Booking) : Bool :=
  b.status == some "pending" || b.status == some "confirmed"

/-- Split a character list at the first colon, as the client-side
calculateEndTime does with `startTime.split(":")`. -/
def splitAtColon (cs : List Char) : List Char × List Char :=
  match cs with
  | [] => ([], [])
  | c :: rest =>
    if c == ':' then ([], rest)
    else
      let p := splitAtColon rest
      (c :: p.fst, p.snd)

/-- Decimal reading of a digit list. -/
def natOfDigits (cs : List Char) : Nat :=
  cs.foldl (fun acc c => acc * 10 + (c.toNat - 48)) 0

/-- Modelled from the spec: minutes-of-day reading of an "HH:MM" string
(the Clock utility of section 4.1; the source performs the same split on
a colon client-side in calculateEndTime). -/
def minutesOfDay (t : String) : Nat :=
  let p := splitAtColon t.data
  natOfDigits p.fst * 60 + natOfDigits p.snd

/-- Modelled from the spec: half-open interval overlap of two bookings on
the same date (invariant I1, interval semantics [start, end)). -/
def intervalsOverlap (b1 b2 : Booking) : Bool :=
  b1.date == b2.date &&
  decide (minutesOfDay b1.startTime < minutesOfDay b2.endTime) &&
  decide (minutesOfDay b2.startTime < minutesOfDay b1.endTime)

/-- Modelled from the spec: a violation witness for invariant I1, namely
two distinct active bookings on the same port with overlapping
intervals. -/
def existsOverlappingActivePair (l : List Booking) : Bool :=
  l.any (fun b1 => l.any (fun b2 =>
    b1.id != b2.id && isActive b1 && isActive b2 &&
    b1.portId == b2.portId && intervalsOverlap b1 b2))

/-- Modelled from the spec: the simplified reading of invariant I3, a
port reads in-use exactly when it has at least one active booking. -/
def portStatusSimplifiedConsistent (s : Storage) : Bool :=
  s.ports.all (fun p =>
    (p.status == some "in-use") ==
      s.bookings.any (fun b => b.portId == p.id && isActive b))

/-- A single available port, as the route handlers see one before any
booking; concrete base state for the reachability scenarios. -/
def port1 : Port :=
  { id := 1, stationId := 1, name := "Port #1", type := "CCS Combo",
    powerKw := some 50, status := some "available" }

/-- Base state: one available port, no bookings. -/
def baseState : Storage :=
  { ports := [port1], bookings := [], currentBookingId := 1 }

/-- Request body for a 10:00 to 11:00 booking on port 1. -/
def body1000 : RawBody :=
  { stationId := some (JsValue.num 1), portId := some (JsValue.num 1),
    date := some (JsValue.str "2024-06-01"),
    startTime := some (JsValue.str "10:00"),
    endTime := some (JsValue.str "11:00"),
    duration := some (JsValue.num 60),
    status := none, vehicleInfo := none, specialRequests := none }

/-- Request body for an overlapping 10:30 to 11:30 booking on port 1. -/
def body1030 : RawBody :=
  { stationId := some (JsValue.num 1), portId := some (JsValue.num 1),
    date := some (JsValue.str "2024-06-01"),
    startTime := some (JsValue.str "10:30"),
    endTime := some (JsValue.str "11:30"),
    duration := some (JsValue.num 60),
    status := none, vehicleInfo := none, specialRequests := none }

/-- State after user 7 books port 1 for 10:00 to 11:00. -/
def stepA : Storage := (postBookings baseState (some 7) body1000 0).snd

/-- State after the booking is then patched to completed (port freed). -/
def stepB : Storage :=
  (patchBookingStatus stepA (some 7) 1 (some (JsValue.str "completed"))).snd

/-- State after the booking is then patched back to confirmed: the
booking is active again but the port status stays "available", because
updateBookingStatus touches the port only on cancelled or completed. -/
def stepC : Storage :=
  (patchBookingStatus stepB (some 7) 1 (some (JsValue.str "confirmed"))).snd

/-- State after the pending booking of stepA is instead patched straight
to confirmed (the ConfirmBooking path). -/
def stepConf : Storage :=
  (patchBookingStatus stepA (some 7) 1 (some (JsValue.str "confirmed"))).snd

/-- The parsed form of body1000 for user 7, as insertBookingSchemaParse
produces it. -/
def ib1000 : InsertBooking :=
  { userId := 7, stationId := 1, portId := 1, date := "2024-06-01",
    startTime := "10:00", endTime := "11:00", duration := 60,
    status := none, vehicleInfo := none, specialRequests := none }

/-- The booking record stepA stores for body1000. -/
def bkA : Booking :=
  { id := 1, userId := 7, stationId := 1, portId := 1, date := "2024-06-01",
    startTime := "10:00", endTime := "11:00", duration := 60,
    status := some "pending", vehicleInfo := none, specialRequests := none,
    createdAt := 0, paymentStatus := none }

/-- The body1000 request with an explicit status field set to confirmed,
exactly what the BookingForm client sends after its payment step. -/
def bodyConfirmed : RawBody :=
  { body1000 with status := some (JsValue.str "confirmed") }

/-- A request body whose window is invalid in every way the spec lists:
duration 7 is outside the 30 to 120 bound, the start 11:00 is at or after
the end 10:00, and the date is not a date at all; every field still has
the right JSON type. -/
def badWindowBody : RawBody :=
  { stationId := some (JsValue.num 1), portId := some (JsValue.num 1),
    date := some (JsValue.str "not-a-date"),
    startTime := some (JsValue.str "11:00"),
    endTime := some (JsValue.str "10:00"),
    duration := some (JsValue.num 7),
    status := none, vehicleInfo := none, specialRequests := none }

/-- A request body that fails the zod type check: the duration arrives as
a string instead of a number. -/
def typeMalformedBody : RawBody :=
  { stationId := some (JsValue.num 1), portId := some (JsValue.num 1),
    date := some (JsValue.str "2024-06-01"),
    startTime := some (JsValue.str "10:00"),
    endTime := some (JsValue.str "11:00"),
    duration := some (JsValue.str "60"),
    status := none, vehicleInfo := none, specialRequests := none }

/-- The parsed form of body1030 for user 9. -/
def ib1030 : InsertBooking :=
  { userId := 9, stationId := 1, portId := 1, date := "2024-06-01",
    startTime := "10:30", endTime := "11:30", duration := 60,
    status := none, vehicleInfo := none, specialRequests := none }

/-- A second booking by another user, for frame-property witnesses. -/
def bkB : Booking :=
  { id := 2, userId := 8, stationId := 1, portId := 1, date := "2024-06-02",
    startTime := "12:00", endTime := "13:00", duration := 60,
    status := some "confirmed", vehicleInfo := some "Tesla Model 3 (ABC123)",
    specialRequests := none, createdAt := 5, paymentStatus := none }

/-- A MemStorage-style state holding two bookings. -/
def memState : Storage :=
  { ports := [port1], bookings := [bkA, bkB], currentBookingId := 3 }

/-! Helper lemmas about the list-map primitives. -/

theorem find?_updateFirst_self {α : Type} (p : α → Bool) (f : α → α)
    (hf : ∀ x, p x = true → p (f x) = true) :
    ∀ l : List α, (updateFirst p f l).find? p = (l.find? p).map f := by
  intro l
  induction l with
  | nil => simp [updateFirst]
  | cons x xs ih =>
    cases hpx : p x with
    | true =>
      rw [updateFirst, if_pos hpx, List.find?_cons_of_pos _ (hf x hpx),
        List.find?_cons_of_pos _ hpx]
      rfl
    | false =>
      rw [updateFirst, if_neg (by simp [hpx]),
        List.find?_cons_of_neg _ (by simp [hpx]),
        List.find?_cons_of_neg _ (by simp [hpx]), ih]

theorem find?_updateFirst_disjoint {α : Type} (p q : α → Bool) (f : α → α)
    (h : ∀ x, p x = true → q x = false ∧ q (f x) = false) :
    ∀ l : List α, (updateFirst p f l).find? q = l.find? q := by
  intro l
  induction l with
  | nil => simp [updateFirst]
  | cons x xs ih =>
    cases hpx : p x with
    | true =>
      rw [updateFirst, if_pos hpx,
        List.find?_cons_of_neg _ (by simp [(h x hpx).2]),
        List.find?_cons_of_neg _ (by simp [(h x hpx).1])]
    | false =>
      rw [updateFirst, if_neg (by simp [hpx])]
      cases hqx : q x with
      | true =>
        rw [List.find?_cons_of_pos _ hqx, List.find?_cons_of_pos _ hqx]
      | false =>
        rw [List.find?_cons_of_neg _ (by simp [hqx]),
          List.find?_cons_of_neg _ (by simp [hqx]), ih]

theorem find?_setById_self (b : Booking) :
    ∀ l : List Booking, (setById l b).find? (fun x => x.id == b.id) = some b := by
  intro l
  induction l with
  | nil => simp [setById]
  | cons x xs ih =>
    cases hx : x.id == b.id with
    | true =>
      rw [setById, if_pos hx, List.find?_cons_of_pos _ (by simp)]
    | false =>
      rw [setById, if_neg (by simp [hx]),
        List.find?_cons_of_neg _ (by simp [hx]), ih]

theorem find?_setById_ne (b : Booking) (j : Int) (hj : j ≠ b.id) :
    ∀ l : List Booking,
      (setById l b).find? (fun x => x.id == j) = l.find? (fun x => x.id == j) := by
  intro l
  induction l with
  | nil =>
    show List.find? (fun x => x.id == j) [b] = none
    rw [List.find?_cons_of_neg _ (by simp [beq_iff_eq]; omega), List.find?_nil]
  | cons x xs ih =>
    cases hx : x.id == b.id with
    | true =>
      have hxb : x.id = b.id := by simpa [beq_iff_eq] using hx
      rw [setById, if_pos hx,
        List.find?_cons_of_neg _ (by simp [beq_iff_eq]; omega),
        List.find?_cons_of_neg _ (by simp [beq_iff_eq]; omega)]
    | false =>
      rw [setById, if_neg (by simp [hx])]
      cases hqx : x.id == j with
      | true =>
        rw [@List.find?_cons_of_pos _ (fun y => y.id == j) x (setById xs b) hqx,
          @List.find?_cons_of_pos _ (fun y => y.id == j) x xs hqx]
      | false =>
        rw [List.find?_cons_of_neg _ (by simp [hqx]),
          List.find?_cons_of_neg _ (by simp [hqx]), ih]

/-! Operation-level characterizations of the MongoStorage-backed routes. -/

theorem MongoStorage.updateBookingStatus_ok (s : Storage) (bid : Int) (st : String)
    (b : Booking) (p : Port)
    (hb : MongoStorage.getBooking s bid = some b)
    (hp : MongoStorage.getPort s b.portId = some p) :
    MongoStorage.updateBookingStatus s bid st
      = (Except.ok { b with status := some st },
         { s with
             bookings := updateFirst (fun x => x.id == bid)
               (fun x => { x with status := some st }) s.bookings
             ports := if st == "cancelled" || st == "completed"
               then updateFirst (fun q => q.id == b.portId)
                 (fun q => { q with status := some "available" }) s.ports
               else s.ports }) := by
  have hbk : (updateFirst (fun x => x.id == bid)
      (fun x => { x with status := some st }) s.bookings).find? (fun x => x.id == bid)
      = some { b with status := some st } := by
    rw [find?_updateFirst_self (fun x => x.id == bid)
      (fun x => { x with status := some st }) (fun x hx => hx) s.bookings,
      show s.bookings.find? (fun x => x.id == bid) = some b from hb]
    rfl
  have hpfind : (updateFirst (fun q => q.id == b.portId)
      (fun q => { q with status := some "available" }) s.ports).find? (fun q => q.id == b.portId)
      = some { p with status := some "available" } := by
    rw [find?_updateFirst_self (fun q => q.id == b.portId)
      (fun q => { q with status := some "available" }) (fun x hx => hx) s.ports,
      show s.ports.find? (fun q => q.id == b.portId) = some p from hp]
    rfl
  cases hsc : (st == "cancelled" || st == "completed") with
  | true =>
    simp only [MongoStorage.updateBookingStatus, MongoStorage.getBooking,
      MongoStorage.updatePortStatus, MongoStorage.getPort, hbk, hsc, if_true]
    simp [hpfind]
  | false =>
    simp only [MongoStorage.updateBookingStatus, MongoStorage.getBooking, hbk, hsc]
    simp

theorem patch_success_state (s : Storage) (uid bid : Int) (st : String) (b : Booking) (p : Port)
    (hst : validStatuses.contains st = true)
    (hb : MongoStorage.getBooking s bid = some b)
    (hu : b.userId = uid)
    (hp : MongoStorage.getPort s b.portId = some p) :
    (patchBookingStatus s (some uid) bid (some (JsValue.str st))).fst
      = { status := 200, booking := some { b with status := some st } } ∧
    MongoStorage.getBooking (patchBookingStatus s (some uid) bid (some (JsValue.str st))).snd bid
      = some { b with status := some st } ∧
    MongoStorage.getPort (patchBookingStatus s (some uid) bid (some (JsValue.str st))).snd b.portId
      = some (if st == "cancelled" || st == "completed"
              then { p with status := some "available" } else p) := by
  have hupd := MongoStorage.updateBookingStatus_ok s bid st b p hb hp
  have hbk : (updateFirst (fun x => x.id == bid)
      (fun x => { x with status := some st }) s.bookings).find? (fun x => x.id == bid)
      = some { b with status := some st } := by
    rw [find?_updateFirst_self (fun x => x.id == bid)
      (fun x => { x with status := some st }) (fun x hx => hx) s.bookings,
      show s.bookings.find? (fun x => x.id == bid) = some b from hb]
    rfl
  have hpfind : (updateFirst (fun q => q.id == b.portId)
      (fun q => { q with status := some "available" }) s.ports).find? (fun q => q.id == b.portId)
      = some { p with status := some "available" } := by
    rw [find?_updateFirst_self (fun q => q.id == b.portId)
      (fun q => { q with status := some "available" }) (fun x hx => hx) s.ports,
      show s.ports.find? (fun q => q.id == b.portId) = some p from hp]
    rfl
  have hbeq : (b.userId == uid) = true := by simp [hu]
  simp only [patchBookingStatus, hst, if_true, hb, hbeq, hupd]
  refine ⟨by first | rfl | trivial, ?_, ?_⟩
  · simpa [MongoStorage.getBooking] using hbk
  · cases hsc : (st == "cancelled" || st == "completed") with
    | true => simp [MongoStorage.getPort, hsc, hpfind]
    | false => simpa [MongoStorage.getPort, hsc] using hp

theorem MongoStorage.createBooking_ok (s : Storage) (ib : InsertBooking) (now : Nat) (p : Port)
    (hp : MongoStorage.getPort s ib.portId = some p) :
    MongoStorage.createBooking s ib now
      = (Except.ok (MongoStorage.newBooking s ib now),
         { s with
             bookings := s.bookings ++ [MongoStorage.newBooking s ib now]
             ports := updateFirst (fun q => q.id == ib.portId)
               (fun q => { q with status := some "in-use" }) s.ports }) := by
  have hpfind : (updateFirst (fun q => q.id == ib.portId)
      (fun q => { q with status := some "in-use" }) s.ports).find? (fun q => q.id == ib.portId)
      = some { p with status := some "in-use" } := by
    rw [find?_updateFirst_self (fun q => q.id == ib.portId)
      (fun q => { q with status := some "in-use" }) (fun x hx => hx) s.ports,
      show s.ports.find? (fun q => q.id == ib.portId) = some p from hp]
    rfl
  simp only [MongoStorage.createBooking, MongoStorage.updatePortStatus,
    MongoStorage.getPort, hpfind]

theorem postBookings_ok (s : Storage) (uid : Int) (body : RawBody) (now : Nat)
    (ib : InsertBooking) (p : Port)
    (hparse : insertBookingSchemaParse body uid = some ib)
    (hp : MongoStorage.getPort s ib.portId = some p)
    (hav : p.status = some "available") :
    (postBookings s (some uid) body now).fst
      = { status := 201, booking := some (MongoStorage.newBooking s ib now) } ∧
    (postBookings s (some uid) body now).snd.bookings
      = s.bookings ++ [MongoStorage.newBooking s ib now] := by
  have hcr := MongoStorage.createBooking_ok s ib now p hp
  simp only [postBookings, hparse, hp, hav, hcr]
  constructor <;> rfl

/-! Claim theorems. -/

/-- C1: the claim says that for every port the half-open intervals of
bookings with status pending or confirmed never overlap, equivalently
that a RequestBooking whose interval overlaps an existing active booking
on the same port is rejected with a conflict and creates no booking.  The
code violates this: POST /api/bookings has no interval overlap check at
all, only the flat port.status gate, and that flag goes stale.  In the
run below, user 7 books port 1 for 10:00 to 11:00 (201), patches the
booking to completed (200, port set back to available), patches it to
confirmed again (200, booking active but the port stays available), and
then a request for the overlapping window 10:30 to 11:30 on port 1 is
accepted with 201, leaving two active bookings with overlapping intervals
on the same port. -/
theorem C1_overlap_admitted :
    (postBookings baseState (some 7) body1000 0).fst.status = 201 ∧
    (patchBookingStatus stepA (some 7) 1 (some (JsValue.str "completed"))).fst.status = 200 ∧
    (patchBookingStatus stepB (some 7) 1 (some (JsValue.str "confirmed"))).fst.status = 200 ∧
    (postBookings stepC (some 7) body1030 1).fst.status = 201 ∧
    existsOverlappingActivePair (postBookings stepC (some 7) body1030 1).snd.bookings = true := by
  decide

/-- C7: the claim says Port.status = "in-use" holds exactly when the port
has at least one booking with status pending or confirmed (the simplified
projector reading of I3), at every reachable state.  The code violates
this: in the reachable state stepC the single booking on port 1 is active
(confirmed) while the port status reads "available", because
updateBookingStatus sets the port to available on completed and never
back on a later confirm. -/
theorem C7_port_status_inconsistent :
    (postBookings baseState (some 7) body1000 0).fst.status = 201 ∧
    (patchBookingStatus stepA (some 7) 1 (some (JsValue.str "completed"))).fst.status = 200 ∧
    (patchBookingStatus stepB (some 7) 1 (some (JsValue.str "confirmed"))).fst.status = 200 ∧
    stepC.bookings.map (fun b => (b.id, b.status)) = [(1, some "confirmed")] ∧
    stepC.ports.map (fun p => (p.id, p.status)) = [(1, some "available")] ∧
    portStatusSimplifiedConsistent stepC = false := by
  decide

/-- C2 counterexample: the claim says every booking created by a
successful POST /api/bookings has status pending, even when the body
carries a status field.  False: the schema keeps the status key and
MongoStorage.createBooking stores it, so the booking-form request (which
sends status confirmed) creates a booking whose status is confirmed. -/
theorem C2_status_passthrough_counterexample :
    (postBookings baseState (some 7) bodyConfirmed 0).fst.status = 201 ∧
    (postBookings baseState (some 7) bodyConfirmed 0).fst.booking.map (fun bk => bk.status)
      = some (some "confirmed") := by
  decide

/-- C2 amended: a booking created by a successful POST /api/bookings
whose body carries no status field (or a null or empty one) has status
pending; when the body carries a truthy status string, that status is
stored instead.  The parsed status is none exactly when the body field is
absent or null, and some "" when it is the empty string; the theorem
covers the pending default for both falsy shapes and the verbatim
pass-through for every non-empty string. -/
theorem C2_default_status_pending (s : Storage) (uid : Int) (body : RawBody) (now : Nat)
    (ib : InsertBooking) (p : Port)
    (hparse : insertBookingSchemaParse body uid = some ib)
    (hp : MongoStorage.getPort s ib.portId = some p)
    (hav : p.status = some "available") :
    (postBookings s (some uid) body now).fst.status = 201 ∧
    ((ib.status = none ∨ ib.status = some "") →
      (postBookings s (some uid) body now).fst.booking.map (fun bk => bk.status)
        = some (some "pending")) ∧
    (∀ v : String, ib.status = some v → v ≠ "" →
      (postBookings s (some uid) body now).fst.booking.map (fun bk => bk.status)
        = some (some v)) := by
  obtain ⟨h1, h2⟩ := postBookings_ok s uid body now ib p hparse hp hav
  rw [h1]
  refine ⟨rfl, ?_, ?_⟩
  · rintro (hstat | hstat) <;> simp [MongoStorage.newBooking, hstat, jsOr]
  · intro v hstat hv
    simp [MongoStorage.newBooking, hstat, jsOr, hv]

/-- C2 amended, witness at a concrete input: body1000 carries no status
field, and the created booking is pending. -/
theorem C2_default_status_pending_witness :
    insertBookingSchemaParse body1000 7 = some ib1000 ∧
    MongoStorage.getPort baseState ib1000.portId = some port1 ∧
    port1.status = some "available" ∧
    ((postBookings baseState (some 7) body1000 0).fst.status = 201 ∧
     ((ib1000.status = none ∨ ib1000.status = some "") →
       (postBookings baseState (some 7) body1000 0).fst.booking.map (fun bk => bk.status)
         = some (some "pending")) ∧
     (∀ v : String, ib1000.status = some v → v ≠ "" →
       (postBookings baseState (some 7) body1000 0).fst.booking.map (fun bk => bk.status)
         = some (some v))) :=
  ⟨by decide, by decide, by decide,
    C2_default_status_pending baseState 7 body1000 0 ib1000 port1
      (by decide) (by decide) (by decide)⟩

/-- C3 counterexample: the claim says statuses only move forward along
pending to confirmed to completed (or to cancelled) and never re-enter
pending or leave a terminal state.  False: a booking patched to completed
can then be patched straight back to pending with 200, because the PATCH
handler checks membership in the four statuses and ownership but no
transition relation. -/
theorem C3_reenters_pending_counterexample :
    (postBookings baseState (some 7) body1000 0).fst.booking.map (fun bk => bk.status)
      = some (some "pending") ∧
    (patchBookingStatus stepA (some 7) 1 (some (JsValue.str "completed"))).fst.status = 200 ∧
    (patchBookingStatus stepB (some 7) 1 (some (JsValue.str "pending"))).fst.status = 200 ∧
    (MongoStorage.getBooking
      (patchBookingStatus stepB (some 7) 1 (some (JsValue.str "pending"))).snd 1).map
        (fun bk => bk.status) = some (some "pending") := by
  decide

/-- C3 amended: the PATCH /api/bookings/:id/status handler accepts any
target status among pending, confirmed, completed and cancelled from any
current status; for an existing booking whose owner is the actor (and
whose port exists) it always answers 200 and overwrites the status, with
no forward-only restriction and no terminal states. -/
theorem C3_any_status_overwrite (s : Storage) (uid bid : Int) (st : String) (b : Booking)
    (p : Port)
    (hst : validStatuses.contains st = true)
    (hb : MongoStorage.getBooking s bid = some b)
    (hu : b.userId = uid)
    (hp : MongoStorage.getPort s b.portId = some p) :
    (patchBookingStatus s (some uid) bid (some (JsValue.str st))).fst
      = { status := 200, booking := some { b with status := some st } } ∧
    MongoStorage.getBooking (patchBookingStatus s (some uid) bid (some (JsValue.str st))).snd bid
      = some { b with status := some st } := by
  obtain ⟨h1, h2, h3⟩ := patch_success_state s uid bid st b p hst hb hu hp
  exact ⟨h1, h2⟩

/-- C3 amended, witness: a confirmed booking is patched back to pending. -/
theorem C3_any_status_overwrite_witness :
    validStatuses.contains "pending" = true ∧
    MongoStorage.getBooking memState 2 = some bkB ∧
    bkB.userId = 8 ∧
    MongoStorage.getPort memState bkB.portId = some port1 ∧
    ((patchBookingStatus memState (some 8) 2 (some (JsValue.str "pending"))).fst
       = { status := 200, booking := some { bkB with status := some "pending" } } ∧
     MongoStorage.getBooking
       (patchBookingStatus memState (some 8) 2 (some (JsValue.str "pending"))).snd 2
       = some { bkB with status := some "pending" }) :=
  ⟨by decide, by decide, rfl, by decide,
    C3_any_status_overwrite memState 8 2 "pending" bkB port1
      (by decide) (by decide) rfl (by decide)⟩

/-- C4 counterexample: the claim says confirming (or completing) twice in
a row succeeds once and is rejected as an invalid transition the second
time.  False: the second identical call also answers 200, because no
state-machine check exists. -/
theorem C4_second_call_succeeds_counterexample :
    (patchBookingStatus stepA (some 7) 1 (some (JsValue.str "confirmed"))).fst.status = 200 ∧
    (patchBookingStatus stepConf (some 7) 1 (some (JsValue.str "confirmed"))).fst.status = 200 ∧
    (MongoStorage.getBooking
      (patchBookingStatus stepConf (some 7) 1 (some (JsValue.str "confirmed"))).snd 1).map
        (fun bk => bk.status) = some (some "confirmed") := by
  decide

/-- C4 amended: patching an owned existing booking to confirmed or
completed twice in a row answers 200 both times; the second call is an
idempotent overwrite, never an invalid-transition rejection. -/
theorem C4_double_call_succeeds (s : Storage) (uid bid : Int) (st : String) (b : Booking)
    (p : Port)
    (hst : st = "confirmed" ∨ st = "completed")
    (hb : MongoStorage.getBooking s bid = some b)
    (hu : b.userId = uid)
    (hp : MongoStorage.getPort s b.portId = some p) :
    (patchBookingStatus s (some uid) bid (some (JsValue.str st))).fst.status = 200 ∧
    (patchBookingStatus (patchBookingStatus s (some uid) bid (some (JsValue.str st))).snd
        (some uid) bid (some (JsValue.str st))).fst.status = 200 := by
  have hst4 : validStatuses.contains st = true := by
    rcases hst with h | h <;> simp [h, validStatuses]
  obtain ⟨h1, h2, h3⟩ := patch_success_state s uid bid st b p hst4 hb hu hp
  obtain ⟨g1, g2, g3⟩ := patch_success_state
    (patchBookingStatus s (some uid) bid (some (JsValue.str st))).snd uid bid st
    { b with status := some st }
    (if st == "cancelled" || st == "completed" then { p with status := some "available" } else p)
    hst4 h2 hu h3
  exact ⟨by rw [h1], by rw [g1]⟩

/-- C4 amended, witness at a concrete input. -/
theorem C4_double_call_succeeds_witness :
    ("confirmed" = "confirmed" ∨ ("confirmed" : String) = "completed") ∧
    MongoStorage.getBooking memState 1 = some bkA ∧
    bkA.userId = 7 ∧
    MongoStorage.getPort memState bkA.portId = some port1 ∧
    ((patchBookingStatus memState (some 7) 1 (some (JsValue.str "confirmed"))).fst.status = 200 ∧
     (patchBookingStatus
        (patchBookingStatus memState (some 7) 1 (some (JsValue.str "confirmed"))).snd
        (some 7) 1 (some (JsValue.str "confirmed"))).fst.status = 200) :=
  ⟨Or.inl rfl, by decide, rfl, by decide,
    C4_double_call_succeeds memState 7 1 "confirmed" bkA port1
      (Or.inl rfl) (by decide) rfl (by decide)⟩

/-- C5: an authenticated PATCH /api/bookings/:id/status on an existing
booking with a valid target status by an actor who is not the booking
owner answers 403 and leaves the state unchanged. -/
theorem C5_non_owner_forbidden (s : Storage) (uid bid : Int) (st : String) (b : Booking)
    (hst : validStatuses.contains st = true)
    (hb : MongoStorage.getBooking s bid = some b)
    (hu : b.userId ≠ uid) :
    patchBookingStatus s (some uid) bid (some (JsValue.str st))
      = ({ status := 403, booking := none }, s) := by
  have hbeq : (b.userId == uid) = false := by simp [hu]
  simp only [patchBookingStatus, hst, if_true, hb, hbeq]
  simp

/-- C5 witness: user 9 cannot cancel the booking of user 7. -/
theorem C5_non_owner_forbidden_witness :
    validStatuses.contains "cancelled" = true ∧
    MongoStorage.getBooking memState 1 = some bkA ∧
    bkA.userId ≠ 9 ∧
    patchBookingStatus memState (some 9) 1 (some (JsValue.str "cancelled"))
      = ({ status := 403, booking := none }, memState) :=
  ⟨by decide, by decide, by decide,
    C5_non_owner_forbidden memState 9 1 "cancelled" bkA (by decide) (by decide) (by decide)⟩

/-- C6: after a successful cancellation of a booking on port P, a
subsequent POST /api/bookings for that port with a well-typed body and an
authenticated user succeeds with 201 and appends a booking — in
particular any window overlapping the cancelled one, since the handler
never inspects windows. -/
theorem C6_cancel_frees_capacity (s : Storage) (uid uid2 bid : Int) (b : Booking) (p : Port)
    (body : RawBody) (now : Nat) (ib : InsertBooking)
    (hb : MongoStorage.getBooking s bid = some b)
    (hu : b.userId = uid)
    (hp : MongoStorage.getPort s b.portId = some p)
    (hparse : insertBookingSchemaParse body uid2 = some ib)
    (hport : ib.portId = b.portId) :
    (patchBookingStatus s (some uid) bid (some (JsValue.str "cancelled"))).fst.status = 200 ∧
    (postBookings (patchBookingStatus s (some uid) bid (some (JsValue.str "cancelled"))).snd
        (some uid2) body now).fst.status = 201 ∧
    (postBookings (patchBookingStatus s (some uid) bid (some (JsValue.str "cancelled"))).snd
        (some uid2) body now).snd.bookings.length
      = (patchBookingStatus s (some uid) bid
          (some (JsValue.str "cancelled"))).snd.bookings.length + 1 := by
  obtain ⟨h1, h2, h3⟩ := patch_success_state s uid bid "cancelled" b p (by decide) hb hu hp
  have h3a : MongoStorage.getPort
      (patchBookingStatus s (some uid) bid (some (JsValue.str "cancelled"))).snd ib.portId
      = some { p with status := some "available" } := by
    rw [hport]
    simpa using h3
  obtain ⟨g1, g2⟩ := postBookings_ok
    (patchBookingStatus s (some uid) bid (some (JsValue.str "cancelled"))).snd uid2 body now ib
    { p with status := some "available" } hparse h3a rfl
  refine ⟨by rw [h1], by rw [g1], ?_⟩
  rw [g2]
  simp

/-- C6 witness: user 7 cancels the 10:00 booking on port 1, then user 9
books the overlapping 10:30 window on port 1 and succeeds. -/
theorem C6_cancel_frees_capacity_witness :
    MongoStorage.getBooking memState 1 = some bkA ∧
    bkA.userId = 7 ∧
    MongoStorage.getPort memState bkA.portId = some port1 ∧
    insertBookingSchemaParse body1030 9 = some ib1030 ∧
    ib1030.portId = bkA.portId ∧
    ((patchBookingStatus memState (some 7) 1 (some (JsValue.str "cancelled"))).fst.status = 200 ∧
     (postBookings (patchBookingStatus memState (some 7) 1 (some (JsValue.str "cancelled"))).snd
         (some 9) body1030 3).fst.status = 201 ∧
     (postBookings (patchBookingStatus memState (some 7) 1 (some (JsValue.str "cancelled"))).snd
         (some 9) body1030 3).snd.bookings.length
       = (patchBookingStatus memState (some 7) 1
           (some (JsValue.str "cancelled"))).snd.bookings.length + 1) :=
  ⟨by decide, rfl, by decide, by decide, rfl,
    C6_cancel_frees_capacity memState 7 9 1 bkA port1 body1030 3 ib1030
      (by decide) rfl (by decide) (by decide) rfl⟩

/-- C8 counterexample: the claim says a POST whose duration is outside
the 30 to 120 bound, or whose start is at or after its end, or whose
date/time is malformed, is rejected with 400 and creates no booking.
False: badWindowBody has duration 7, start 11:00 after end 10:00 and a
nonsense date, yet the request is accepted with 201 and a booking is
stored, because insertBookingSchema checks only JSON types. -/
theorem C8_invalid_window_accepted_counterexample :
    (postBookings baseState (some 7) badWindowBody 0).fst.status = 201 ∧
    (postBookings baseState (some 7) badWindowBody 0).snd.bookings.length = 1 ∧
    minutesOfDay "11:00" ≥ minutesOfDay "10:00" ∧
    ¬ (30 ≤ (7 : Int) ∧ (7 : Int) ≤ 120) := by
  decide

/-- C8 amended: only type-level malformation is rejected: when the zod
schema fails (a required field missing or of the wrong JSON type) the
POST answers 400 and the state is unchanged; the 30 to 120 duration
bound lives only in the client UI stepper and start-before-end is checked
nowhere. -/
theorem C8_type_malformed_rejected (s : Storage) (uid : Int) (body : RawBody) (now : Nat)
    (h : insertBookingSchemaParse body uid = none) :
    postBookings s (some uid) body now = ({ status := 400, booking := none }, s) := by
  simp only [postBookings, h]

/-- C8 amended, witness: a duration sent as a string is rejected. -/
theorem C8_type_malformed_rejected_witness :
    insertBookingSchemaParse typeMalformedBody 7 = none ∧
    postBookings baseState (some 7) typeMalformedBody 0
      = ({ status := 400, booking := none }, baseState) :=
  ⟨by decide, C8_type_malformed_rejected baseState 7 typeMalformedBody 0 (by decide)⟩

/-- C9 counterexample: the claim says processUpiPayment is deterministic
for fixed inputs and starting state.  False: the outcome depends on the
hidden Math.random draw — on the same state and inputs, draw 0 succeeds
and draw 1 fails. -/
theorem C9_random_outcome_counterexample :
    (MongoStorage.processUpiPayment stepA 1 "driver@upi" 250 0).fst = true ∧
    (MongoStorage.processUpiPayment stepA 1 "driver@upi" 250 1).fst = false := by
  constructor <;> norm_num [MongoStorage.processUpiPayment]

/-- C9 amended: the success outcome of processUpiPayment is a function of
the random draw alone — it equals the test draw-below-0.9 regardless of
state, booking id, UPI id or amount, identically in MongoStorage and
MemStorage; the operation is deterministic only once the draw is fixed,
so the engine does contain probabilistic logic. -/
theorem C9_outcome_determined_by_draw (s1 s2 : Storage) (b1 b2 : Int) (u1 u2 : String)
    (a1 a2 : Int) (r : ℚ) :
    (MongoStorage.processUpiPayment s1 b1 u1 a1 r).fst
      = (MongoStorage.processUpiPayment s2 b2 u2 a2 r).fst ∧
    ((MongoStorage.processUpiPayment s1 b1 u1 a1 r).fst = true ↔ r < 9 / 10) ∧
    (MemStorage.processUpiPayment s1 b1 u1 a1 r).fst
      = (MongoStorage.processUpiPayment s1 b1 u1 a1 r).fst := by
  have hmem : (MemStorage.processUpiPayment s1 b1 u1 a1 r).fst = decide (r < 9 / 10) := by
    by_cases h : r < 9 / 10
    · cases hgb : MemStorage.getBooking s1 b1 <;>
        simp [MemStorage.processUpiPayment, h, hgb]
    · simp [MemStorage.processUpiPayment, h]
  have hmongo : ∀ (s : Storage) (bid : Int) (u : String) (a : Int),
      (MongoStorage.processUpiPayment s bid u a r).fst = decide (r < 9 / 10) := by
    intro s bid u a
    by_cases h : r < 9 / 10 <;> simp [MongoStorage.processUpiPayment, h]
  refine ⟨by rw [hmongo, hmongo], ?_, by rw [hmem, hmongo]⟩
  rw [hmongo]
  simp

/-- C10: MemStorage.updateBookingStatus on an existing booking changes
only the status field of that booking — its id, userId, stationId, portId,
date, startTime, endTime, duration, vehicleInfo, specialRequests and
createdAt are untouched — and every other booking in the store is
unchanged (the record-update equality below fixes every field but
status). -/
theorem C10_update_frame (s : Storage) (bid : Int) (st : String) (b : Booking)
    (hb : MemStorage.getBooking s bid = some b) :
    MemStorage.getBooking (MemStorage.updateBookingStatus s bid st).snd bid
      = some { b with status := some st } ∧
    ∀ j, j ≠ bid →
      MemStorage.getBooking (MemStorage.updateBookingStatus s bid st).snd j
        = MemStorage.getBooking s j := by
  have hpred := List.find?_some (show s.bookings.find? (fun x => x.id == bid) = some b from hb)
  have hbid : b.id = bid := by simpa [beq_iff_eq] using hpred
  have hb2 : s.bookings.find? (fun x => x.id == bid) = some b := hb
  have hbl : (MemStorage.updateBookingStatus s bid st).snd.bookings
      = setById s.bookings { b with status := some st } := by
    simp only [MemStorage.updateBookingStatus, MemStorage.getBooking,
      MemStorage.updatePortStatus, MemStorage.getPort, hb2]
    by_cases hsc : (st == "cancelled" || st == "completed") = true
    · simp only [hsc, if_true]
      cases hgp : List.find? (fun p => p.id == b.portId) s.ports with
      | none => simp [hgp]
      | some q => simp [hgp]
    · simp [hsc]
  constructor
  · show (MemStorage.updateBookingStatus s bid st).snd.bookings.find? (fun x => x.id == bid)
      = some { b with status := some st }
    rw [hbl, ← hbid]
    exact find?_setById_self { b with status := some st } s.bookings
  · intro j hj
    show (MemStorage.updateBookingStatus s bid st).snd.bookings.find? (fun x => x.id == j)
      = s.bookings.find? (fun x => x.id == j)
    rw [hbl]
    refine find?_setById_ne _ j ?_ _
    show j ≠ b.id
    rw [hbid]
    exact hj

/-- C10 witness: cancelling booking 1 leaves booking 2 untouched. -/
theorem C10_update_frame_witness :
    MemStorage.getBooking memState 1 = some bkA ∧
    (MemStorage.getBooking (MemStorage.updateBookingStatus memState 1 "cancelled").snd 1
       = some { bkA with status := some "cancelled" } ∧
     ∀ j, j ≠ (1 : Int) →
       MemStorage.getBooking (MemStorage.updateBookingStatus memState 1 "cancelled").snd j
         = MemStorage.getBooking memState j) :=
  ⟨by decide, C10_update_frame memState 1 "cancelled" bkA (by decide)⟩
